import Mathlib

/-!
Shallow embedding of the session synchronization and peer-negotiation core of
the CodeSphere frontend (`src/frontend/src/pages/SessionPage.jsx`).

Each React handler is translated to a pure Lean function on an explicit
`ClientState`.  Asynchronous platform results (the SDP produced by
`createOffer`/`createAnswer`, the stream produced by `getUserMedia`) are passed
as oracle parameters.  Side effects (state setters, socket transmissions,
toasts, WebRTC calls) are recorded as an ordered `List Action` so that
ordering properties can be stated.  Platform calls that can throw
(`WebSocket.send` on a CONNECTING socket, `addIceCandidate` without a remote
description, a method call on a null reference) are modelled with `Except`.
-/

namespace CodeSphere

/-- Opaque session description (SDP) blobs are modelled as strings. -/
abbrev SDP := String

/-- ICE candidates are opaque to the client code; modelled as strings. -/
abbrev Candidate := String

/-- A session participant, `{ userId, username }` as in the wire protocol. -/
structure Participant where
  userId : String
  username : String
deriving DecidableEq, Repr

/-- `WebSocket.readyState` values. -/
inductive WSReadyState where
  | CONNECTING
  | OPEN
  | CLOSING
  | CLOSED
deriving DecidableEq, Repr

/-- The WebSocket object held in `wsRef.current`: only its `readyState` is
observed by the code under study. -/
structure WS where
  readyState : WSReadyState
deriving DecidableEq, Repr

/-- Kind of a media track. -/
inductive TrackKind where
  | video
  | audio
deriving DecidableEq, BEq, Repr

/-- A local media track with its stopped flag (`track.stop()` sets it). -/
structure Track where
  kind : TrackKind
  tid : Nat
  stopped : Bool
deriving DecidableEq, Repr

/-- A `MediaStream`: a bag of tracks. -/
structure MediaStream where
  tracks : List Track
deriving DecidableEq, Repr

/-- The observable state of an `RTCPeerConnection` used by the code:
descriptions, candidates passed to `addIceCandidate`, and added tracks. -/
structure RTCPeerConnection where
  remoteDescription : Option SDP
  localDescription : Option SDP
  addedCandidates : List Candidate
  tracks : List Track
deriving DecidableEq, Repr

/-- The nine wire message variants of the protocol (plus `join`). -/
inductive Message where
  | join (userId username sessionId : String)
  | code_change (code : String) (userId sessionId : String)
  | language_change (language : String) (userId sessionId : String)
  | participants_update (participants : Option (List Participant))
  | session_state (code : Option String) (language : Option String)
      (participants : Option (List Participant))
  | webrtc_offer (offer : SDP) (userId sessionId : String)
  | webrtc_answer (answer : SDP) (userId sessionId : String)
  | webrtc_ice (candidate : Option Candidate) (userId sessionId : String)
  | user_joined (username : Option String)
  | user_left (username : Option String)
deriving DecidableEq, Repr

/-- Errors thrown by platform calls: `InvalidStateError` from
`WebSocket.send` on a CONNECTING socket or `addIceCandidate` without a remote
description; `TypeError` from a method call on a null reference. -/
inductive JSError where
  | InvalidStateError
  | TypeError
deriving DecidableEq, Repr

/-- `getUserMedia` failure (permission denied / no device). -/
inductive MediaError where
  | MediaAccessError
deriving DecidableEq, Repr

/-- Primitive effects of a handler run, in program order.  `wsTransmit m`
records that `m` was actually put on the wire; `spawn...` records that the
synchronous message dispatcher started one of the async WebRTC handlers. -/
inductive Action where
  | setRemoteFlag (b : Bool)
  | setCode (s : String)
  | setLanguage (s : String)
  | setParticipants (ps : List Participant)
  | scheduleClearFlag
  | wsTransmit (m : Message)
  | toastError (s : String)
  | toastInfo (s : String)
  | createPeerConnection
  | setRemoteDescription (s : SDP)
  | createAnswer
  | setLocalDescription (s : SDP)
  | createOffer
  | addTrack (t : Track)
  | addIceCandidate (c : Candidate)
  | stopTracks (k : TrackKind)
  | spawnHandleOffer (offer : SDP) (userId : String)
  | spawnHandleAnswer (answer : SDP) (userId : String)
  | spawnHandleIce (candidate : Option Candidate) (userId : String)
deriving DecidableEq, Repr

/-- The component state of `SessionPage`: React state, refs, and the owned
platform objects. -/
structure ClientState where
  code : String
  language : String
  participants : List Participant
  isVideoOn : Bool
  isAudioOn : Bool
  isConnected : Bool
  userId : String
  username : String
  sessionId : String
  ws : Option WS
  editorMounted : Bool
  isRemoteChange : Bool
  peerConnection : Option RTCPeerConnection
  localStream : Option MediaStream
deriving DecidableEq, Repr

/-- Messages actually transmitted within an action trace. -/
def transmits (acts : List Action) : List Message :=
  acts.filterMap fun a =>
    match a with
    | .wsTransmit m => some m
    | _ => none

/-- JS `x || 'dflt'` on an optional string (empty string is falsy). -/
def jsStringOr (v : Option String) (dflt : String) : String :=
  match v with
  | some s => if s = "" then dflt else s
  | none => dflt

/-- The guarded send pattern
`if (wsRef.current?.readyState === WebSocket.OPEN) wsRef.current.send(m)`:
the message is transmitted only on an OPEN socket, silently skipped
otherwise. -/
def guardedSend (ws : Option WS) (m : Message) : List Action :=
  match ws with
  | some w => if w.readyState = .OPEN then [.wsTransmit m] else []
  | none => []

/-- The unguarded send pattern `wsRef.current?.send(m)`, with the platform
semantics of `WebSocket.send` (WHATWG): on a CONNECTING socket it throws
`InvalidStateError`; on a CLOSING or CLOSED socket the data is silently
discarded; a null reference short-circuits to no call at all. -/
def optionalChainSend (ws : Option WS) (m : Message) :
    Except JSError (List Action) :=
  match ws with
  | none => .ok []
  | some w =>
    match w.readyState with
    | .CONNECTING => .error .InvalidStateError
    | .OPEN => .ok [.wsTransmit m]
    | .CLOSING => .ok []
    | .CLOSED => .ok []

/-- `track.stop()` applied to every track of the given kind of a stream. -/
def stopTracksOfKind (k : TrackKind) (s : MediaStream) : MediaStream :=
  { tracks := s.tracks.map fun t => if t.kind = k then { t with stopped := true } else t }

/-- `initWebRTC`: creates a fresh `RTCPeerConnection` (no descriptions, no
candidates, no tracks) and stores it in `peerConnectionRef.current`.  The
`onicecandidate` and `ontrack` callbacks it registers are modelled separately
(`onicecandidate` below; `ontrack` only feeds the remote video element, which
is outside the core). -/
def initWebRTC (st : ClientState) : ClientState × List Action :=
  let pc : RTCPeerConnection :=
    { remoteDescription := none, localDescription := none,
      addedCandidates := [], tracks := [] }
  ({ st with peerConnection := some pc }, [.createPeerConnection])

/-- The `onicecandidate` callback registered by `initWebRTC`:
`if (event.candidate && wsRef.current?.readyState === WebSocket.OPEN)` send a
`webrtc_ice` message. -/
def onicecandidate (st : ClientState) (eventCandidate : Option Candidate) :
    List Action :=
  match eventCandidate with
  | some c => guardedSend st.ws (.webrtc_ice (some c) st.userId st.sessionId)
  | none => []

/-- `handleEditorChange(value)`: if the suppression flag is set, return
immediately; otherwise `setCode(value)` and, only when the socket is OPEN,
broadcast a `code_change` tagged with the local userId. -/
def handleEditorChange (st : ClientState) (value : String) :
    ClientState × List Action :=
  if st.isRemoteChange then (st, [])
  else
    let st1 := { st with code := value }
    (st1, Action.setCode value ::
      guardedSend st1.ws (.code_change value st1.userId st1.sessionId))

/-- `handleLanguageChange(newLanguage)`: `setLanguage` then a guarded
`language_change` broadcast. -/
def handleLanguageChange (st : ClientState) (newLanguage : String) :
    ClientState × List Action :=
  let st1 := { st with language := newLanguage }
  (st1, Action.setLanguage newLanguage ::
    guardedSend st1.ws (.language_change newLanguage st1.userId st1.sessionId))

/-- The body of the `setTimeout(..., 50)` scheduled by a remote apply:
clears the suppression flag. -/
def clearRemoteFlag (st : ClientState) : ClientState :=
  { st with isRemoteChange := false }

/-- `handleWebSocketMessage(data)`: the synchronous inbound dispatcher.
The `webrtc_*` cases invoke async handlers without awaiting them; this is
recorded as a `spawn...` action, and the handlers themselves are the
functions `handleOffer`, `handleAnswer`, `handleIceCandidate` below.
JS truthiness of `data.code` / `data.language` (empty string falsy) and
`data.participants || []` are modelled explicitly. -/
def handleWebSocketMessage (st : ClientState) (data : Message) :
    ClientState × List Action :=
  match data with
  | .code_change c uid _sid =>
    if uid ≠ st.userId ∧ st.editorMounted = true then
      ({ st with isRemoteChange := true, code := c },
       [.setRemoteFlag true, .setCode c, .scheduleClearFlag])
    else (st, [])
  | .language_change l uid _sid =>
    if uid ≠ st.userId then
      ({ st with language := l }, [.setLanguage l])
    else (st, [])
  | .participants_update ps =>
    ({ st with participants := ps.getD [] }, [.setParticipants (ps.getD [])])
  | .session_state c l p =>
    let (st1, a1) : ClientState × List Action :=
      match c with
      | some cc =>
        if cc ≠ "" then
          ({ st with isRemoteChange := true, code := cc },
           [.setRemoteFlag true, .setCode cc, .scheduleClearFlag])
        else (st, [])
      | none => (st, [])
    let (st2, a2) : ClientState × List Action :=
      match l with
      | some ll =>
        if ll ≠ "" then ({ st1 with language := ll }, [.setLanguage ll])
        else (st1, [])
      | none => (st1, [])
    let (st3, a3) : ClientState × List Action :=
      match p with
      | some ps => ({ st2 with participants := ps }, [.setParticipants ps])
      | none => (st2, [])
    (st3, a1 ++ a2 ++ a3)
  | .webrtc_offer o uid _sid => (st, [.spawnHandleOffer o uid])
  | .webrtc_answer a uid _sid => (st, [.spawnHandleAnswer a uid])
  | .webrtc_ice c uid _sid => (st, [.spawnHandleIce c uid])
  | .user_joined u => (st, [.toastInfo (jsStringOr u "Someone" ++ " joined")])
  | .user_left u => (st, [.toastInfo (jsStringOr u "Someone" ++ " left")])
  | .join _ _ _ => (st, [])

/-- `handleOffer(data)`: create the peer connection if absent, set the offer
as remote description, create an answer (`answerOracle` is the SDP the
platform returns), set it as local description, then
`wsRef.current?.send(webrtc_answer)` (unguarded). -/
def handleOffer (st : ClientState) (offer answerOracle : SDP) :
    Except JSError (ClientState × List Action) :=
  let (st1, acts1) :=
    match st.peerConnection with
    | none => initWebRTC st
    | some _ => (st, [])
  match st1.peerConnection with
  | none => .error .TypeError
  | some pc =>
    let pc2 := { pc with remoteDescription := some offer,
                         localDescription := some answerOracle }
    let st2 := { st1 with peerConnection := some pc2 }
    let acts2 := acts1 ++ [.setRemoteDescription offer, .createAnswer,
                           .setLocalDescription answerOracle]
    match optionalChainSend st2.ws
        (.webrtc_answer answerOracle st2.userId st2.sessionId) with
    | .error e => .error e
    | .ok sendActs => .ok (st2, acts2 ++ sendActs)

/-- `handleAnswer(data)`: if a peer connection exists, set the answer as its
remote description; otherwise do nothing. -/
def handleAnswer (st : ClientState) (answer : SDP) :
    ClientState × List Action :=
  match st.peerConnection with
  | some pc =>
    let pc1 : RTCPeerConnection := { pc with remoteDescription := some answer }
    ({ st with peerConnection := some pc1 }, [.setRemoteDescription answer])
  | none => (st, [])

/-- `handleIceCandidate(data)`: `if (peerConnectionRef.current &&
data.candidate) await pc.addIceCandidate(...)`.  The candidate is passed
straight to `addIceCandidate` — there is no buffer in the code.  Platform
rule: `addIceCandidate` rejects with `InvalidStateError` when no remote
description has been set.  When the peer connection is null the message is a
no-op. -/
def handleIceCandidate (st : ClientState) (candidate : Option Candidate) :
    Except JSError (ClientState × List Action) :=
  match st.peerConnection, candidate with
  | some pc, some c =>
    match pc.remoteDescription with
    | none => .error .InvalidStateError
    | some _ =>
      let pc1 : RTCPeerConnection :=
        { pc with addedCandidates := pc.addedCandidates ++ [c] }
      .ok ({ st with peerConnection := some pc1 }, [.addIceCandidate c])
  | _, _ => .ok (st, [])

/-- `toggleVideo()`: the whole body runs inside a try/catch whose catch
produces the "Failed to access camera" toast.  Disable branch: stop video
tracks, clear the video element, `setIsVideoOn(false)`.  Enable branch:
`getUserMedia` (`gum` is its result), store the stream, `setIsVideoOn(true)`,
create the peer connection if absent, add the stream's tracks, create an
offer (`offerOracle`), set it as local description, then
`wsRef.current?.send(webrtc_offer)` (unguarded; a throw is caught by the
surrounding catch). -/
def toggleVideo (st : ClientState) (gum : Except MediaError MediaStream)
    (offerOracle : SDP) : ClientState × List Action :=
  if st.isVideoOn then
    ({ st with isVideoOn := false,
               localStream := st.localStream.map (stopTracksOfKind .video) },
     [.stopTracks .video])
  else
    match gum with
    | .error _ => (st, [.toastError "Failed to access camera"])
    | .ok stream =>
      let st1 := { st with localStream := some stream, isVideoOn := true }
      let (st2, pcActs) :=
        match st1.peerConnection with
        | none => initWebRTC st1
        | some _ => (st1, [])
      match st2.peerConnection with
      | none => (st2, pcActs ++ [.toastError "Failed to access camera"])
      | some pc =>
        let pc3 := { pc with tracks := pc.tracks ++ stream.tracks,
                             localDescription := some offerOracle }
        let st3 := { st2 with peerConnection := some pc3 }
        let preActs := pcActs ++ stream.tracks.map Action.addTrack ++
          [.createOffer, .setLocalDescription offerOracle]
        match optionalChainSend st3.ws
            (.webrtc_offer offerOracle st3.userId st3.sessionId) with
        | .error _ => (st3, preActs ++ [.toastError "Failed to access camera"])
        | .ok sendActs => (st3, preActs ++ sendActs)

/-- `toggleAudio()`: disable branch stops audio tracks; enable branch
acquires an audio stream (`gum`) and either stores it (no prior stream) or
adds its audio tracks to the existing local stream, then
`setIsAudioOn(true)`.  No peer connection is created and nothing is sent. -/
def toggleAudio (st : ClientState) (gum : Except MediaError MediaStream) :
    ClientState × List Action :=
  if st.isAudioOn then
    ({ st with isAudioOn := false,
               localStream := st.localStream.map (stopTracksOfKind .audio) },
     [.stopTracks .audio])
  else
    match gum with
    | .error _ => (st, [.toastError "Failed to access microphone"])
    | .ok stream =>
      match st.localStream with
      | none => ({ st with localStream := some stream, isAudioOn := true }, [])
      | some ls =>
        let audioTracks := stream.tracks.filter fun t => t.kind == TrackKind.audio
        ({ st with localStream := some { tracks := ls.tracks ++ audioTracks },
                   isAudioOn := true }, [])

/-- True exactly for the roster snapshot messages. -/
def rosterMessage (m : Message) : Bool :=
  match m with
  | .participants_update _ => true
  | .session_state _ _ _ => true
  | _ => false

/-- A concrete client state used by witnesses and counterexamples. -/
def stEx : ClientState :=
  { code := "// start", language := "javascript", participants := [],
    isVideoOn := false, isAudioOn := false, isConnected := true,
    userId := "u1", username := "User 1", sessionId := "s1",
    ws := some { readyState := .OPEN }, editorMounted := true,
    isRemoteChange := false, peerConnection := none, localStream := none }

/-- `stEx` with a socket that is still connecting. -/
def stConn : ClientState := { stEx with ws := some { readyState := .CONNECTING } }

/-- A one-video-track stream, as returned by `getUserMedia({video:true})`. -/
def streamV : MediaStream :=
  { tracks := [{ kind := .video, tid := 0, stopped := false }] }

/-- A one-audio-track stream, as returned by `getUserMedia({audio:true})`. -/
def streamA : MediaStream :=
  { tracks := [{ kind := .audio, tid := 1, stopped := false }] }

/-- Claim C4 (confirmed): two successive `participants_update` messages leave
the roster exactly equal to the participant list of the last message — a full
replace, no union or merge with the prior roster. -/
theorem C4_roster_replace (st : ClientState) (ps1 ps2 : List Participant) :
    ((handleWebSocketMessage
        ((handleWebSocketMessage st (.participants_update (some ps1))).1)
        (.participants_update (some ps2))).1).participants = ps2 := by
  simp [handleWebSocketMessage]

/-- Claim C5 (confirmed): when `getUserMedia` fails with a `MediaAccessError`
during video enable, `toggleVideo` only emits an error toast: the state is
unchanged, `isVideoOn` stays false and no peer connection is created. -/
theorem C5_media_error_state_unchanged (st : ClientState) (offerOracle : SDP)
    (hv : st.isVideoOn = false) (hpc : st.peerConnection = none) :
    toggleVideo st (.error .MediaAccessError) offerOracle
      = (st, [.toastError "Failed to access camera"])
    ∧ (toggleVideo st (.error .MediaAccessError) offerOracle).1.isVideoOn = false
    ∧ (toggleVideo st (.error .MediaAccessError) offerOracle).1.peerConnection
      = none := by
  refine ⟨?_, ?_, ?_⟩ <;> simp [toggleVideo, hv, hpc]

/-- Witness for C5 at the concrete state `stEx`. -/
theorem C5_media_error_witness :
    toggleVideo stEx (.error .MediaAccessError) "offer0"
      = (stEx, [.toastError "Failed to access camera"])
    ∧ (toggleVideo stEx (.error .MediaAccessError) "offer0").1.isVideoOn = false
    ∧ (toggleVideo stEx (.error .MediaAccessError) "offer0").1.peerConnection
      = none :=
  C5_media_error_state_unchanged stEx "offer0" rfl rfl

/-- Claim C7 (confirmed): a local edit with the suppression flag clear and an
OPEN socket updates the text and broadcasts exactly one `code_change`
carrying the new full text, tagged with the local userId. -/
theorem C7_local_edit_broadcast (st : ClientState) (v : String)
    (hflag : st.isRemoteChange = false)
    (hws : st.ws = some { readyState := .OPEN }) :
    handleEditorChange st v
      = ({ st with code := v },
         [.setCode v, .wsTransmit (.code_change v st.userId st.sessionId)])
    ∧ transmits (handleEditorChange st v).2
      = [.code_change v st.userId st.sessionId] := by
  refine ⟨?_, ?_⟩ <;> simp [handleEditorChange, guardedSend, transmits, hflag, hws]

/-- Witness for C7: the concrete edit "x = 1" at `stEx`. -/
theorem C7_local_edit_witness :
    handleEditorChange stEx "x = 1"
      = ({ stEx with code := "x = 1" },
         [.setCode "x = 1",
          .wsTransmit (.code_change "x = 1" stEx.userId stEx.sessionId)])
    ∧ transmits (handleEditorChange stEx "x = 1").2
      = [.code_change "x = 1" stEx.userId stEx.sessionId] :=
  C7_local_edit_broadcast stEx "x = 1" rfl rfl

/-- Claim C10 (confirmed): a remote `code_change` from a different user that
arrives before the editor has mounted is ignored entirely — state unchanged
(text and suppression flag included) and nothing is sent. -/
theorem C10_premount_ignore (st : ClientState) (c uid sid : String)
    (h1 : uid ≠ st.userId) (h2 : st.editorMounted = false) :
    handleWebSocketMessage st (.code_change c uid sid) = (st, [])
    ∧ (handleWebSocketMessage st (.code_change c uid sid)).1.code = st.code
    ∧ (handleWebSocketMessage st (.code_change c uid sid)).1.isRemoteChange
      = st.isRemoteChange
    ∧ transmits (handleWebSocketMessage st (.code_change c uid sid)).2 = [] := by
  refine ⟨?_, ?_, ?_, ?_⟩ <;> simp [handleWebSocketMessage, transmits, h2]

/-- Witness for C10: a concrete remote change before editor mount. -/
theorem C10_premount_witness :
    handleWebSocketMessage { stEx with editorMounted := false }
        (.code_change "x = 1" "u2" "s1")
      = ({ stEx with editorMounted := false }, [])
    ∧ (handleWebSocketMessage { stEx with editorMounted := false }
        (.code_change "x = 1" "u2" "s1")).1.code
      = ({ stEx with editorMounted := false } : ClientState).code
    ∧ (handleWebSocketMessage { stEx with editorMounted := false }
        (.code_change "x = 1" "u2" "s1")).1.isRemoteChange
      = ({ stEx with editorMounted := false } : ClientState).isRemoteChange
    ∧ transmits (handleWebSocketMessage { stEx with editorMounted := false }
        (.code_change "x = 1" "u2" "s1")).2 = [] :=
  C10_premount_ignore { stEx with editorMounted := false } "x = 1" "u2" "s1"
    (by decide) rfl

/-- Counterexample to claim C1 as stated: at a state whose editor handle is
absent, a remote `code_change` with a different userId does NOT replace the
local text (it is ignored), so the unconditional replacement claim fails. -/
theorem C1_counterexample_unmounted_editor :
    (handleWebSocketMessage { stEx with editorMounted := false }
        (.code_change "x = 1" "u2" "s1")).1.code = "// start"
    ∧ "// start" ≠ "x = 1" := by
  exact ⟨rfl, by decide⟩

/-- Claim C1 (corrected: the replacement requires the editor handle to
exist).  For a remote `code_change` with a different userId while the editor
is mounted: the text is replaced by the message's code, the suppression flag
is set before the text mutation (the action trace is exactly
setRemoteFlag-then-setCode-then-scheduleClearFlag), nothing is transmitted,
any editor change callback on the resulting state is a no-op sending
nothing, and the flag is cleared only by the scheduled timeout. -/
theorem C1_echo_suppression (st : ClientState) (c uid sid v : String)
    (h1 : uid ≠ st.userId) (h2 : st.editorMounted = true) :
    (handleWebSocketMessage st (.code_change c uid sid)).1.code = c
    ∧ (handleWebSocketMessage st (.code_change c uid sid)).1.isRemoteChange = true
    ∧ (handleWebSocketMessage st (.code_change c uid sid)).2
      = [.setRemoteFlag true, .setCode c, .scheduleClearFlag]
    ∧ transmits (handleWebSocketMessage st (.code_change c uid sid)).2 = []
    ∧ handleEditorChange (handleWebSocketMessage st (.code_change c uid sid)).1 v
      = ((handleWebSocketMessage st (.code_change c uid sid)).1, [])
    ∧ (clearRemoteFlag
        (handleWebSocketMessage st (.code_change c uid sid)).1).isRemoteChange
      = false := by
  refine ⟨?_, ?_, ?_, ?_, ?_, ?_⟩ <;>
    simp [handleWebSocketMessage, handleEditorChange, clearRemoteFlag,
          transmits, h1, h2]

/-- Witness for the corrected C1 at `stEx` with remote user "u2". -/
theorem C1_echo_suppression_witness :
    (handleWebSocketMessage stEx (.code_change "x = 1" "u2" "s1")).1.code = "x = 1"
    ∧ handleEditorChange
        (handleWebSocketMessage stEx (.code_change "x = 1" "u2" "s1")).1 "typed"
      = ((handleWebSocketMessage stEx (.code_change "x = 1" "u2" "s1")).1, []) := by
  have h := C1_echo_suppression stEx "x = 1" "u2" "s1" "typed" (by decide) rfl
  exact ⟨h.1, h.2.2.2.2.1⟩

/-- Claim C6 (confirmed): on an inbound `webrtc_offer` with an OPEN socket,
`handleOffer` performs, in order: set the offer as remote description,
create an answer, set it as local description, transmit a `webrtc_answer`
tagged with the local userId — both when a peer connection already exists
and when one has to be created first. -/
theorem C6_offer_handling_order (st st2 : ClientState) (offer ans : SDP)
    (pc : RTCPeerConnection)
    (hws : st.ws = some { readyState := .OPEN })
    (hpc : st.peerConnection = some pc)
    (hws2 : st2.ws = some { readyState := .OPEN })
    (hpc2 : st2.peerConnection = none) :
    handleOffer st offer ans
      = .ok ({ st with
                peerConnection := some ⟨some offer, some ans, pc.addedCandidates, pc.tracks⟩ },
             [.setRemoteDescription offer, .createAnswer,
              .setLocalDescription ans,
              .wsTransmit (.webrtc_answer ans st.userId st.sessionId)])
    ∧ handleOffer st2 offer ans
      = .ok ({ st2 with peerConnection := some ⟨some offer, some ans, [], []⟩ },
             [.createPeerConnection, .setRemoteDescription offer, .createAnswer,
              .setLocalDescription ans,
              .wsTransmit (.webrtc_answer ans st2.userId st2.sessionId)]) := by
  refine ⟨?_, ?_⟩ <;>
    simp [handleOffer, initWebRTC, optionalChainSend, hws, hpc, hws2, hpc2]

/-- Witness for C6 at concrete states with and without a peer connection. -/
theorem C6_offer_handling_witness :
    handleOffer { stEx with peerConnection := some ⟨none, none, [], []⟩ }
        "offerSDP" "answerSDP"
      = .ok ({ stEx with
                peerConnection := some ⟨some "offerSDP", some "answerSDP", [], []⟩ },
             [.setRemoteDescription "offerSDP", .createAnswer,
              .setLocalDescription "answerSDP",
              .wsTransmit (.webrtc_answer "answerSDP" stEx.userId stEx.sessionId)])
    ∧ handleOffer stEx "offerSDP" "answerSDP"
      = .ok ({ stEx with
                peerConnection := some ⟨some "offerSDP", some "answerSDP", [], []⟩ },
             [.createPeerConnection, .setRemoteDescription "offerSDP",
              .createAnswer, .setLocalDescription "answerSDP",
              .wsTransmit (.webrtc_answer "answerSDP" stEx.userId stEx.sessionId)]) :=
  C6_offer_handling_order { stEx with peerConnection := some ⟨none, none, [], []⟩ }
    stEx "offerSDP" "answerSDP" ⟨none, none, [], []⟩ rfl rfl rfl rfl

/-- Claim C9 (confirmed): `user_joined` and `user_left` only produce a UI
notification and leave the whole state — the roster in particular —
unchanged; any message that is not a roster snapshot
(`participants_update`/`session_state`) leaves the roster unchanged, and so
does `handleAnswer`. -/
theorem C9_notifications_roster_frame (st : ClientState) (u : Option String)
    (m : Message) (ans : SDP) (hm : rosterMessage m = false) :
    handleWebSocketMessage st (.user_joined u)
      = (st, [.toastInfo (jsStringOr u "Someone" ++ " joined")])
    ∧ handleWebSocketMessage st (.user_left u)
      = (st, [.toastInfo (jsStringOr u "Someone" ++ " left")])
    ∧ (handleWebSocketMessage st m).1.participants = st.participants
    ∧ (handleAnswer st ans).1.participants = st.participants := by
  refine ⟨rfl, rfl, ?_, ?_⟩
  · cases m <;> simp_all [handleWebSocketMessage, rosterMessage] <;>
      split <;> simp
  · cases h : st.peerConnection <;> simp [handleAnswer, h]

/-- Witness for C9: concrete notification and non-snapshot messages. -/
theorem C9_notifications_witness :
    handleWebSocketMessage stEx (.user_joined (some "Bob"))
      = (stEx, [.toastInfo (jsStringOr (some "Bob") "Someone" ++ " joined")])
    ∧ (handleWebSocketMessage stEx (.code_change "z" "u2" "s1")).1.participants
      = stEx.participants := by
  have h := C9_notifications_roster_frame stEx (some "Bob")
    (.code_change "z" "u2" "s1") "ans" rfl
  exact ⟨h.1, h.2.2.1⟩

/-- Claim C2 (code_bug): the code has no ICE candidate buffer.  An early
`webrtc_ice` candidate (arriving before any remote description is set) is
either silently dropped — when no peer connection exists yet, the handler is
a no-op and the candidate is retained nowhere — or passed straight to
`addIceCandidate`, which rejects with `InvalidStateError` when the peer
connection has no remote description.  This evaluates the handler at both
failing inputs. -/
theorem C2_early_ice_dropped :
    handleIceCandidate stEx (some "cand0") = .ok (stEx, [])
    ∧ handleIceCandidate
        { stEx with peerConnection := some ⟨none, some "offerSDP", [], []⟩ }
        (some "cand0")
      = .error .InvalidStateError := by
  exact ⟨rfl, rfl⟩

/-- Counterexample to claim C3 as stated: the `webrtc_offer` send in
`toggleVideo` has no Open-state guard, so with the socket still CONNECTING
the platform send throws, the surrounding catch raises a user-visible error
toast (not a silent drop), and the video state is left enabled. -/
theorem C3_counterexample_offer_raises :
    Action.toastError "Failed to access camera"
      ∈ (toggleVideo stConn (.ok streamV) "offer0").2
    ∧ transmits (toggleVideo stConn (.ok streamV) "offer0").2 = []
    ∧ (toggleVideo stConn (.ok streamV) "offer0").1.isVideoOn = true := by
  refine ⟨by decide, rfl, rfl⟩

/-- Claim C3 (corrected): the `code_change`, `language_change` and
`webrtc_ice` sends are guarded by an Open check and silently dropped
otherwise (nothing queued, no error, no retry); the `webrtc_offer` and
`webrtc_answer` sends are only null-checked, so on a CLOSED socket the
message is discarded by the platform (still no queue or retry), while on a
CONNECTING socket the send raises (see the counterexample). -/
theorem C3_send_drop (st : ClientState) (w : WS) (v lang : String)
    (c : Candidate) (offer ans : SDP)
    (st2 : ClientState) (pc2 : RTCPeerConnection)
    (hws : st.ws = some w) (hnot : w.readyState ≠ .OPEN)
    (hflag : st.isRemoteChange = false)
    (hws2 : st2.ws = some { readyState := .CLOSED })
    (hpc2 : st2.peerConnection = some pc2) :
    handleEditorChange st v = ({ st with code := v }, [.setCode v])
    ∧ handleLanguageChange st lang
      = ({ st with language := lang }, [.setLanguage lang])
    ∧ onicecandidate st (some c) = []
    ∧ handleOffer st2 offer ans
      = .ok ({ st2 with
                peerConnection := some ⟨some offer, some ans, pc2.addedCandidates, pc2.tracks⟩ },
             [.setRemoteDescription offer, .createAnswer,
              .setLocalDescription ans]) := by
  refine ⟨?_, ?_, ?_, ?_⟩ <;>
    simp [handleEditorChange, handleLanguageChange, onicecandidate, handleOffer,
          guardedSend, optionalChainSend, hws, hnot, hflag, hws2, hpc2]

/-- Witness for the corrected C3 at concrete CLOSING/CLOSED states. -/
theorem C3_send_drop_witness :
    handleEditorChange { stEx with ws := some { readyState := .CLOSING } } "v0"
      = ({ stEx with ws := some { readyState := .CLOSING }, code := "v0" },
         [.setCode "v0"])
    ∧ handleOffer
        { stEx with ws := some { readyState := .CLOSED },
                    peerConnection := some ⟨none, none, [], []⟩ }
        "offerSDP" "answerSDP"
      = .ok ({ stEx with ws := some { readyState := .CLOSED },
                         peerConnection := some ⟨some "offerSDP", some "answerSDP", [], []⟩ },
             [.setRemoteDescription "offerSDP", .createAnswer,
              .setLocalDescription "answerSDP"]) := by
  have h := C3_send_drop { stEx with ws := some { readyState := .CLOSING } }
    { readyState := .CLOSING } "v0" "lang0" "cand0" "offerSDP" "answerSDP"
    { stEx with ws := some { readyState := .CLOSED },
                peerConnection := some ⟨none, none, [], []⟩ }
    ⟨none, none, [], []⟩ rfl (by decide) rfl rfl rfl
  exact ⟨h.1, h.2.2.2⟩

/-- Counterexample to claim C8 as stated: enabling audio at a state with no
negotiation succeeds (isAudioOn becomes true) yet creates no peer connection
and transmits nothing — negotiation does not leave Idle for an audio
enable. -/
theorem C8_counterexample_audio_no_negotiation :
    (toggleAudio stEx (.ok streamA)).1.peerConnection = none
    ∧ transmits (toggleAudio stEx (.ok streamA)).2 = []
    ∧ (toggleAudio stEx (.ok streamA)).1.isAudioOn = true := by
  exact ⟨rfl, rfl, rfl⟩

/-- Claim C8 (corrected: only a video enable triggers negotiation).  When
video is enabled with no existing peer connection, device acquisition
succeeding and the socket OPEN, a peer connection is created, an offer is
created and set as local description, and a `webrtc_offer` tagged with the
local userId is transmitted; an audio enable never touches the peer
connection and never transmits anything. -/
theorem C8_video_only_negotiation (st : ClientState) (stream : MediaStream)
    (offer : SDP) (st2 : ClientState) (gum2 : Except MediaError MediaStream)
    (hv : st.isVideoOn = false) (hpc : st.peerConnection = none)
    (hws : st.ws = some { readyState := .OPEN }) :
    toggleVideo st (.ok stream) offer
      = ({ st with localStream := some stream, isVideoOn := true,
                   peerConnection := some ⟨none, some offer, [], stream.tracks⟩ },
         .createPeerConnection :: stream.tracks.map Action.addTrack ++
           [.createOffer, .setLocalDescription offer,
            .wsTransmit (.webrtc_offer offer st.userId st.sessionId)])
    ∧ (toggleAudio st2 gum2).1.peerConnection = st2.peerConnection
    ∧ transmits (toggleAudio st2 gum2).2 = [] := by
  refine ⟨?_, ?_, ?_⟩
  · simp [toggleVideo, initWebRTC, optionalChainSend, hv, hpc, hws]
  · cases h : st2.isAudioOn <;> cases gum2 <;>
      cases h2 : st2.localStream <;> simp [toggleAudio, h, h2]
  · cases h : st2.isAudioOn <;> cases gum2 <;>
      cases h2 : st2.localStream <;> simp [toggleAudio, transmits, h, h2]

/-- Witness for the corrected C8 at concrete states. -/
theorem C8_video_only_witness :
    toggleVideo stEx (.ok streamV) "offer0"
      = ({ stEx with localStream := some streamV, isVideoOn := true,
                     peerConnection := some ⟨none, some "offer0", [], streamV.tracks⟩ },
         .createPeerConnection :: streamV.tracks.map Action.addTrack ++
           [.createOffer, .setLocalDescription "offer0",
            .wsTransmit (.webrtc_offer "offer0" stEx.userId stEx.sessionId)])
    ∧ transmits (toggleAudio stEx (.ok streamA)).2 = [] := by
  have h := C8_video_only_negotiation stEx streamV "offer0" stEx (.ok streamA)
    rfl rfl rfl
  exact ⟨h.1, h.2.2⟩

end CodeSphere
